import Mathlib

/-!
Verification development for the remotefs-fuse driver.

The definitions below are a shallow embedding of the Rust sources of the
repository (crate `remotefs-fuse`):

* `src/remotefs-fuse/src/driver/unix/inode.rs`      — inode database
* `src/remotefs-fuse/src/driver/unix/file_handle.rs`— per-process file handles
* `src/remotefs-fuse/src/driver/unix.rs`            — Unix (fuser) callbacks
* `src/remotefs-fuse/src/driver/windows.rs`         — Windows (dokan) callbacks
* `src/remotefs-fuse/src/mount/option.rs`           — mount options

Machine integers of the source (`u32`, `u64`, `i32` masks) are modelled as
`Nat`; all mask arithmetic in the source (`a -= a & x`) is on non-negative
values and is borrow-free, so `Nat` subtraction is exact.  Rust `HashMap`s
are modelled as key-unique association lists with `HashMap`-equivalent
`insert`/`remove`/`get`/`len` semantics.  Remote-backend calls are modelled
by passing their results (`Except`) as explicit parameters, and the single
`Read::read` call of a streaming read, which may deliver fewer bytes than
requested, is modelled by an explicit `delivered` parameter bounded by a
hypothesis in each theorem.
-/

namespace RemotefsFuse

/-- A remote path, as a list of components; the root `"/"` is `[]`,
and `PathBuf::join` is list append of one component. -/
abbrev RPath := List String

/-- Subset of `remotefs::RemoteErrorType` used by the driver code. -/
inductive RErr where
  | noSuchFileOrDirectory
  | unsupportedFeature
  | ioError
  | protocolError
  | couldNotOpenFile
  deriving DecidableEq, Repr

/-- `remotefs::fs::FileType`. -/
inductive FType where
  | dir
  | file
  | symlink
  deriving DecidableEq, Repr

/-- The fields of `remotefs::fs::Metadata` read by the driver.  Times are
seconds since the epoch. -/
structure Metadata where
  size : Nat
  uid : Option Nat
  gid : Option Nat
  mode : Option Nat
  accessed : Option Nat
  modified : Option Nat
  created : Option Nat
  ftype : FType
  deriving DecidableEq, Repr

/-- `remotefs::File`: a path plus metadata. -/
structure RFile where
  path : RPath
  metadata : Metadata
  deriving DecidableEq, Repr

/- ------------------------------------------------------------------
Association lists with HashMap semantics (key-unique when built from `[]`).
------------------------------------------------------------------- -/

/-- `HashMap::get`. -/
def lookupA [DecidableEq κ] : List (κ × ν) → κ → Option ν
  | [], _ => none
  | (k2, v) :: rest, k => if k2 = k then some v else lookupA rest k

/-- `HashMap::insert` (replaces an existing binding of the key). -/
def insertA [DecidableEq κ] : List (κ × ν) → κ → ν → List (κ × ν)
  | [], k, v => [(k, v)]
  | (k2, v2) :: rest, k, v =>
      if k2 = k then (k, v) :: rest else (k2, v2) :: insertA rest k v

/-- `HashMap::remove`. -/
def removeA [DecidableEq κ] : List (κ × ν) → κ → List (κ × ν)
  | [], _ => []
  | (k2, v2) :: rest, k =>
      if k2 = k then removeA rest k else (k2, v2) :: removeA rest k

theorem lookupA_insertA_self [DecidableEq κ] (l : List (κ × ν)) (k : κ) (v : ν) :
    lookupA (insertA l k v) k = some v := by
  induction l with
  | nil => simp [insertA, lookupA]
  | cons hd tl ih =>
      by_cases h : hd.1 = k
      · simp [insertA, lookupA, h]
      · simpa [insertA, lookupA, h] using ih

theorem lookupA_insertA_ne [DecidableEq κ] (l : List (κ × ν)) (k k2 : κ) (v : ν)
    (h : k2 ≠ k) : lookupA (insertA l k v) k2 = lookupA l k2 := by
  have hne : k ≠ k2 := fun hh => h hh.symm
  induction l with
  | nil => simp [insertA, lookupA, hne]
  | cons hd tl ih =>
      obtain ⟨k3, v3⟩ := hd
      by_cases h1 : k3 = k
      · subst h1
        simp [insertA, lookupA, hne]
      · by_cases h2 : k3 = k2 <;> simp [insertA, lookupA, h, h1, h2, ih]

theorem lookupA_removeA_self [DecidableEq κ] (l : List (κ × ν)) (k : κ) :
    lookupA (removeA l k) k = none := by
  induction l with
  | nil => simp [removeA, lookupA]
  | cons hd tl ih =>
      by_cases h : hd.1 = k <;> simp [removeA, lookupA, h, ih]

theorem lookupA_removeA_ne [DecidableEq κ] (l : List (κ × ν)) (k k2 : κ)
    (h : k2 ≠ k) : lookupA (removeA l k) k2 = lookupA l k2 := by
  have hne : k ≠ k2 := fun hh => h hh.symm
  induction l with
  | nil => simp [removeA, lookupA]
  | cons hd tl ih =>
      obtain ⟨k3, v3⟩ := hd
      by_cases h1 : k3 = k
      · subst h1
        simp [removeA, lookupA, hne, ih]
      · by_cases h2 : k3 = k2 <;> simp [removeA, lookupA, h, h1, h2, ih]

/- ------------------------------------------------------------------
InodeDb — src/remotefs-fuse/src/driver/unix/inode.rs
------------------------------------------------------------------- -/

/-- `inode.rs`: `pub const ROOT_INODE: Inode = 1`. -/
def ROOT_INODE : Nat := 1

/-- `InodeDb`: a map from inode numbers to paths. -/
structure InodeDbM where
  database : List (Nat × RPath)
  deriving DecidableEq, Repr

namespace InodeDbM

/-- `InodeDb::put`. -/
def put (db : InodeDbM) (ino : Nat) (p : RPath) : InodeDbM :=
  ⟨insertA db.database ino p⟩

/-- `InodeDb::load`: empty database plus the root mapping `1 → "/"`. -/
def load : InodeDbM := put ⟨[]⟩ ROOT_INODE []

/-- `InodeDb::has`. -/
def has (db : InodeDbM) (ino : Nat) : Bool :=
  (lookupA db.database ino).isSome

/-- `InodeDb::forget`: a `forget(1)` of the root inode is ignored. -/
def forget (db : InodeDbM) (ino : Nat) : InodeDbM :=
  if ino = ROOT_INODE then db else ⟨removeA db.database ino⟩

/-- `InodeDb::get`. -/
def get (db : InodeDbM) (ino : Nat) : Option RPath :=
  lookupA db.database ino

end InodeDbM

/-- C5. For every `InodeTable` created by `load()` and every finite sequence
of `forget(ino)` calls (with arbitrary inode arguments, including 1),
afterwards `get(1)` still returns `"/"`; moreover a `forget` of a non-root
inode removes exactly that mapping and leaves every other inode's mapping
unchanged. -/
theorem c5_root_immortal (forgets : List Nat) :
    ((forgets.foldl InodeDbM.forget InodeDbM.load).get ROOT_INODE = some ([] : RPath)) ∧
    (∀ (db : InodeDbM) (ino j : Nat), ino ≠ ROOT_INODE →
      ((db.forget ino).get ino = none ∧
       (j ≠ ino → (db.forget ino).get j = db.get j))) := by
  constructor
  · have hroot : InodeDbM.load.get ROOT_INODE = some ([] : RPath) := by
      simp [InodeDbM.load, InodeDbM.get, InodeDbM.put, lookupA_insertA_self]
    have main : ∀ (l : List Nat) (db : InodeDbM),
        db.get ROOT_INODE = some ([] : RPath) →
        (l.foldl InodeDbM.forget db).get ROOT_INODE = some ([] : RPath) := by
      intro l
      induction l with
      | nil => intro db h; simpa using h
      | cons hd tl ih =>
          intro db h
          refine ih _ ?_
          by_cases hhd : hd = ROOT_INODE
          · simpa [InodeDbM.forget, hhd] using h
          · simpa [InodeDbM.forget, InodeDbM.get, hhd,
              lookupA_removeA_ne _ _ _ (fun hh => hhd hh.symm)] using h
    exact main forgets _ hroot
  · intro db ino j hino
    constructor
    · simp [InodeDbM.forget, InodeDbM.get, hino, lookupA_removeA_self]
    · intro hj
      simp [InodeDbM.forget, InodeDbM.get, hino, lookupA_removeA_ne _ _ _ hj]

/-- Witness for C5 at concrete inputs: forget the root and a mapped inode. -/
theorem c5_root_immortal_witness :
    (([1, 7].foldl InodeDbM.forget InodeDbM.load).get ROOT_INODE = some ([] : RPath)) ∧
    (((InodeDbM.load.put 7 ["a"]).forget 7).get 7 = none ∧
     ((InodeDbM.load.put 7 ["a"]).forget 7).get ROOT_INODE =
       (InodeDbM.load.put 7 ["a"]).get ROOT_INODE) := by
  refine ⟨(c5_root_immortal [1, 7]).1, ?_, ?_⟩
  · exact ((c5_root_immortal []).2 (InodeDbM.load.put 7 ["a"]) 7 ROOT_INODE (by decide)).1
  · exact ((c5_root_immortal []).2 (InodeDbM.load.put 7 ["a"]) 7 ROOT_INODE (by decide)).2
      (by decide)

/- ------------------------------------------------------------------
FileHandlersDb — src/remotefs-fuse/src/driver/unix/file_handle.rs
------------------------------------------------------------------- -/

/-- `FileHandle`: a handle to an open file. -/
structure FileHandleM where
  inode : Nat
  read : Bool
  write : Bool
  deriving DecidableEq, Repr

/-- `ProcessFileHandlers`: map from handle numbers to handles, plus the
next handle number. -/
structure ProcessFileHandlersM where
  handles : List (Nat × FileHandleM)
  next : Nat
  deriving DecidableEq, Repr

namespace ProcessFileHandlersM

/-- `ProcessFileHandlers::default()`. -/
def default : ProcessFileHandlersM := ⟨[], 0⟩

/-- `ProcessFileHandlers::put`: hands out `next`, stores the handle there,
then sets `next` to the size of the handle map. -/
def put (s : ProcessFileHandlersM) (inode : Nat) (read write : Bool) :
    Nat × ProcessFileHandlersM :=
  let fh := s.next
  let handles := insertA s.handles fh ⟨inode, read, write⟩
  (fh, ⟨handles, handles.length⟩)

/-- `ProcessFileHandlers::get`. -/
def get (s : ProcessFileHandlersM) (fh : Nat) : Option FileHandleM :=
  lookupA s.handles fh

/-- `ProcessFileHandlers::close`: removes the handle and remembers its
number in `next` for reuse. -/
def close (s : ProcessFileHandlersM) (fh : Nat) : ProcessFileHandlersM :=
  ⟨removeA s.handles fh, fh⟩

end ProcessFileHandlersM

/-- `FileHandlersDb`: per-process handle tables.  (`unix.rs` invokes its
allocation entry point as `open`; `file_handle.rs` names it `put`.) -/
structure FileHandlersDbM where
  handlers : List (Nat × ProcessFileHandlersM)
  deriving DecidableEq, Repr

namespace FileHandlersDbM

/-- `FileHandlersDb::put` (the allocation called `open(pid, ino, read,
write)` by the Unix callbacks): `entry(pid).or_insert_default().put(…)`. -/
def put (db : FileHandlersDbM) (pid inode : Nat) (read write : Bool) :
    Nat × FileHandlersDbM :=
  let pfh := (lookupA db.handlers pid).getD ProcessFileHandlersM.default
  let r := pfh.put inode read write
  (r.1, ⟨insertA db.handlers pid r.2⟩)

/-- `FileHandlersDb::get`. -/
def get (db : FileHandlersDbM) (pid fh : Nat) : Option FileHandleM :=
  (lookupA db.handlers pid).bind (fun h => h.get fh)

/-- `FileHandlersDb::close`: forwards to the pid's table, then drops the
pid's entry entirely when its handle map became empty. -/
def close (db : FileHandlersDbM) (pid fh : Nat) : FileHandlersDbM :=
  let h1 := match lookupA db.handlers pid with
    | some pfh => insertA db.handlers pid (pfh.close fh)
    | none => db.handlers
  if ((lookupA h1 pid).map (fun p => p.handles.isEmpty)).getD false then
    ⟨removeA h1 pid⟩
  else
    ⟨h1⟩

end FileHandlersDbM

/-- C2 counterexample.  The claim fails in two ways on concrete traces.
Trace 1: in pid 1 open two handles (0 and 1), close 0, then close 1 — the
second close empties the pid's table, so the whole per-pid state (including
the remembered free id 1) is dropped, and the next open returns 0, not the
just-closed 1.  Trace 2: open three handles (0, 1, 2), close 0, close 1,
open (returns 1), open — the last open returns 2, which is still in use:
the returned id is not free, and handle 2's entry is overwritten. -/
theorem c2_counterexample :
    (let db0 : FileHandlersDbM := ⟨[]⟩
     let s1 := db0.put 1 10 true false
     let s2 := s1.2.put 1 11 true false
     let db4 := (s2.2.close 1 s1.1).close 1 s2.1
     s2.1 = 1 ∧ (db4.put 1 12 true false).1 = 0 ∧
       (db4.put 1 12 true false).1 ≠ s2.1) ∧
    (let db0 : FileHandlersDbM := ⟨[]⟩
     let s1 := db0.put 1 10 true false
     let s2 := s1.2.put 1 11 true false
     let s3 := s2.2.put 1 12 true false
     let db5 := (s3.2.close 1 s1.1).close 1 s2.1
     let s6 := db5.put 1 13 true false
     let s7 := s6.2.put 1 14 true false
     s7.1 = 2 ∧ (s6.2.get 1 2).isSome = true ∧
       s6.2.get 1 2 ≠ s7.2.get 1 2) := by
  constructor
  · exact ⟨by decide, by decide, by decide⟩
  · exact ⟨by decide, by decide, by decide⟩

/-- C2 amended.  `open(pid, …)` returns the pid's stored `next` value.
Immediately after `close(pid, h)`: if the pid still holds at least one
handle (its table survived the close), the next `open(pid, …)` returns
`h`; if the close emptied the pid's table, the per-pid state is dropped
and the next `open(pid, …)` returns 0.  The returned id is not guaranteed
to be unused (see the counterexample's second trace). -/
theorem c2_handle_reuse (db : FileHandlersDbM) (pid fh inode : Nat)
    (read write : Bool) :
    (∀ pfh, lookupA (db.close pid fh).handlers pid = some pfh →
       ((db.close pid fh).put pid inode read write).1 = fh) ∧
    (lookupA (db.close pid fh).handlers pid = none →
       ((db.close pid fh).put pid inode read write).1 = 0) := by
  constructor
  · intro pfh hl
    have hnext : pfh.next = fh := by
      unfold FileHandlersDbM.close at hl
      rcases hcase : lookupA db.handlers pid with _ | pfh0
      · rw [hcase] at hl
        simp only at hl
        by_cases hemp :
            ((lookupA db.handlers pid).map (fun p => p.handles.isEmpty)).getD false
        · rw [if_pos hemp] at hl
          rw [lookupA_removeA_self] at hl
          exact absurd hl (by simp)
        · rw [if_neg hemp] at hl
          rw [hcase] at hl
          exact absurd hl (by simp)
      · rw [hcase] at hl
        simp only at hl
        by_cases hemp :
            ((lookupA (insertA db.handlers pid (pfh0.close fh)) pid).map
              (fun p => p.handles.isEmpty)).getD false
        · rw [if_pos hemp] at hl
          rw [lookupA_removeA_self] at hl
          exact absurd hl (by simp)
        · rw [if_neg hemp] at hl
          rw [lookupA_insertA_self] at hl
          have : pfh = pfh0.close fh := by injection hl.symm
          rw [this]
          rfl
    unfold FileHandlersDbM.put
    rw [hl]
    simp [ProcessFileHandlersM.put, hnext]
  · intro hl
    unfold FileHandlersDbM.put
    rw [hl]
    rfl

/-- Witness for C2 amended: a pid whose table survives a close reuses the
closed id; a fresh pid (no surviving table) allocates 0. -/
theorem c2_handle_reuse_witness :
    ((((⟨[(1, ⟨[(0, ⟨10, true, false⟩), (1, ⟨11, true, false⟩)], 2⟩)]⟩ :
        FileHandlersDbM).close 1 0).put 1 12 true false).1 = 0) ∧
    ((((⟨[(1, ⟨[(0, ⟨10, true, false⟩)], 1⟩)]⟩ :
        FileHandlersDbM).close 1 0).put 1 12 true false).1 = 0) := by
  constructor
  · exact (c2_handle_reuse _ 1 0 12 true false).1
      ⟨[(1, ⟨11, true, false⟩)], 0⟩ (by decide)
  · exact (c2_handle_reuse _ 1 0 12 true false).2 (by decide)

/- ------------------------------------------------------------------
Driver::check_access — src/remotefs-fuse/src/driver/unix.rs lines 151-179
------------------------------------------------------------------- -/

/-- libc `F_OK`. -/
def F_OK : Nat := 0

/-- libc `X_OK`. -/
def X_OK : Nat := 1

/-- libc `W_OK`. -/
def W_OK : Nat := 2

/-- libc `R_OK`. -/
def R_OK : Nat := 4

/-- One `access_mask -= access_mask & x;` statement of the source.  The
subtrahend is a bitwise subset of the minuend, so `Nat` subtraction is
exact (no borrow). -/
def clearB (a x : Nat) : Nat := a - (a &&& x)

/-- `Driver::check_access(file, uid, gid, access_mask)`.  The root branch
first masks with `X_OK` and then clears the three permission triplets in
turn; the other branches clear the one triplet selected by owner / group /
other and test the result against 0 (the source mutates `access_mask` in
place and checks `access_mask == 0` at the end). -/
def check_access (file : RFile) (uid gid : Nat) (access_mask : Nat) : Bool :=
  -- the source binds `file_mode` once; it is inlined here
  if access_mask = F_OK then true
  else if uid = 0 then
    -- root is only allowed to exec if one of the X bits is set
    decide (clearB (clearB (clearB (access_mask &&& X_OK)
      ((file.metadata.mode.getD 0o777) >>> 6))
      ((file.metadata.mode.getD 0o777) >>> 3))
      (file.metadata.mode.getD 0o777) = 0)
  else if uid = file.metadata.uid.getD 0 then
    decide (clearB access_mask ((file.metadata.mode.getD 0o777) >>> 6) = 0)
  else if gid = file.metadata.gid.getD 0 then
    decide (clearB access_mask ((file.metadata.mode.getD 0o777) >>> 3) = 0)
  else
    decide (clearB access_mask (file.metadata.mode.getD 0o777) = 0)

theorem clearB_eq_zero_iff (a x : Nat) :
    clearB a x = 0 ↔ ∀ i, a.testBit i = true → x.testBit i = true := by
  unfold clearB
  rw [Nat.sub_eq_zero_iff_le]
  constructor
  · intro hle i hai
    have heq : a &&& x = a := le_antisymm (Nat.and_le_left ..) hle
    have hbit := congrArg (fun n => n.testBit i) heq
    simp only [Nat.testBit_and] at hbit
    rw [hai] at hbit
    simpa using hbit
  · intro h
    have heq : a &&& x = a := by
      apply Nat.eq_of_testBit_eq
      intro i
      rw [Nat.testBit_and]
      cases hai : a.testBit i
      · simp
      · simp [h i hai]
    exact le_of_eq heq.symm

theorem clearB_zero_mono {a x y : Nat}
    (hxy : ∀ i, x.testBit i = true → y.testBit i = true)
    (h : clearB a x = 0) : clearB a y = 0 := by
  rw [clearB_eq_zero_iff] at h ⊢
  exact fun i hi => hxy i (h i hi)

theorem shiftRight_subset {m1 m2 : Nat}
    (h : ∀ i, m1.testBit i = true → m2.testBit i = true) (k : Nat) :
    ∀ i, (m1 >>> k).testBit i = true → (m2 >>> k).testBit i = true := by
  intro i hi
  rw [Nat.testBit_shiftRight] at hi ⊢
  exact h _ hi

theorem subset_of_and_eq {m1 m2 : Nat} (h : m1 &&& m2 = m1) :
    ∀ i, m1.testBit i = true → m2.testBit i = true := by
  intro i hi
  have hbit := congrArg (fun n => n.testBit i) h
  simp only [Nat.testBit_and] at hbit
  rw [hi] at hbit
  simpa using hbit

theorem clearB_one (x : Nat) : clearB 1 x = 1 - x % 2 := by
  unfold clearB
  rw [Nat.and_comm, Nat.and_one_is_mod]

theorem clearB_zero_left (x : Nat) : clearB 0 x = 0 := by
  simp [clearB]

/-- Characterisation of the root branch of `check_access`: the chained
clears of an `X_OK`-masked request succeed exactly when the request had no
exec bit or the mode grants exec somewhere. -/
theorem rootChain_eq_zero_iff (a m : Nat) :
    (clearB (clearB (clearB (a &&& 1) (m >>> 6)) (m >>> 3)) m = 0) ↔
    (a &&& 1 = 0 ∨ m.testBit 6 = true ∨ m.testBit 3 = true ∨
      m.testBit 0 = true) := by
  have hme : ∀ k, m.testBit k = decide ((m >>> k) % 2 = 1) := by
    intro k
    rw [Nat.testBit_to_div_mod, Nat.shiftRight_eq_div_pow]
  have ha : a &&& 1 = a % 2 := Nat.and_one_is_mod a
  have h01 : a &&& 1 = 0 ∨ a &&& 1 = 1 := by omega
  rcases h01 with h0 | h1
  · simp [h0, clearB_zero_left]
  · rcases Nat.mod_two_eq_zero_or_one (m >>> 6) with h6 | h6 <;>
      rcases Nat.mod_two_eq_zero_or_one (m >>> 3) with h3 | h3 <;>
      rcases Nat.mod_two_eq_zero_or_one m with hm0 | hm0 <;>
      simp [h1, clearB_one, clearB_zero_left, hme, Nat.shiftRight_zero,
        h6, h3, hm0]

/-- C6.  `check_access` is monotone in the file's 9-bit POSIX mode: for
every caller uid, gid and access mask, and modes `m1 ⊆ m2` (every bit
granted by `m1` is granted by `m2`), an allow under `m1` is an allow under
`m2`, and a deny under `m2` is a deny under `m1`. -/
theorem c6_check_access_mode_monotone (p : RPath) (meta : Metadata)
    (uid gid access_mask m1 m2 : Nat)
    (hm1 : m1 < 512) (hm2 : m2 < 512)
    (hsub : ∀ i, m1.testBit i = true → m2.testBit i = true) :
    (check_access ⟨p, { meta with mode := some m1 }⟩ uid gid access_mask = true →
     check_access ⟨p, { meta with mode := some m2 }⟩ uid gid access_mask = true) ∧
    (check_access ⟨p, { meta with mode := some m2 }⟩ uid gid access_mask = false →
     check_access ⟨p, { meta with mode := some m1 }⟩ uid gid access_mask = false) := by
  have main :
      check_access ⟨p, { meta with mode := some m1 }⟩ uid gid access_mask = true →
      check_access ⟨p, { meta with mode := some m2 }⟩ uid gid access_mask = true := by
    intro h
    unfold check_access at h ⊢
    by_cases h0 : access_mask = F_OK
    · rw [if_pos h0]
    · rw [if_neg h0] at h ⊢
      by_cases hroot : uid = 0
      · rw [if_pos hroot] at h ⊢
        simp only [Option.getD_some, decide_eq_true_eq] at h ⊢
        rw [show X_OK = 1 from rfl, rootChain_eq_zero_iff] at h ⊢
        rcases h with h | h | h | h
        · exact Or.inl h
        · exact Or.inr (Or.inl (hsub 6 h))
        · exact Or.inr (Or.inr (Or.inl (hsub 3 h)))
        · exact Or.inr (Or.inr (Or.inr (hsub 0 h)))
      · rw [if_neg hroot] at h ⊢
        by_cases huid : uid = meta.uid.getD 0
        · rw [if_pos huid] at h ⊢
          simp only [Option.getD_some, decide_eq_true_eq] at h ⊢
          exact clearB_zero_mono (shiftRight_subset hsub 6) h
        · rw [if_neg huid] at h ⊢
          by_cases hgid : gid = meta.gid.getD 0
          · rw [if_pos hgid] at h ⊢
            simp only [Option.getD_some, decide_eq_true_eq] at h ⊢
            exact clearB_zero_mono (shiftRight_subset hsub 3) h
          · rw [if_neg hgid] at h ⊢
            simp only [Option.getD_some, decide_eq_true_eq] at h ⊢
            exact clearB_zero_mono hsub h
  refine ⟨main, fun hf => ?_⟩
  cases hc : check_access ⟨p, { meta with mode := some m1 }⟩ uid gid access_mask
  · rfl
  · rw [main hc] at hf
    exact Bool.noConfusion hf

/-- Witness for C6: owner-read under mode `0o400` is allowed, and stays
allowed under the larger mode `0o600`. -/
theorem c6_check_access_mode_monotone_witness :
    check_access
      ⟨[],
        { size := 0, uid := some 5, gid := some 5, mode := some 0o400,
          accessed := none, modified := none, created := none,
          ftype := FType.file }⟩ 5 5 R_OK = true ∧
    check_access
      ⟨[],
        { size := 0, uid := some 5, gid := some 5, mode := some 0o600,
          accessed := none, modified := none, created := none,
          ftype := FType.file }⟩ 5 5 R_OK = true := by
  have hallow : check_access
      ⟨[],
        { size := 0, uid := some 5, gid := some 5, mode := some 0o400,
          accessed := none, modified := none, created := none,
          ftype := FType.file }⟩ 5 5 R_OK = true := by decide
  refine ⟨hallow, ?_⟩
  exact (c6_check_access_mode_monotone []
      { size := 0, uid := some 5, gid := some 5, mode := some 0o400,
        accessed := none, modified := none, created := none,
        ftype := FType.file } 5 5 R_OK 0o400 0o600
      (by decide) (by decide)
      (subset_of_and_eq (by decide))).1 hallow

/- ------------------------------------------------------------------
convert_file — unix.rs lines 25-67
------------------------------------------------------------------- -/

/-- `BLOCK_SIZE` constant of unix.rs. -/
def BLOCK_SIZE : Nat := 512

/-- `fuser::FileAttr` as filled in by `convert_file`. -/
structure FileAttrM where
  ino : Nat
  size : Nat
  blocks : Nat
  atime : Nat
  mtime : Nat
  ctime : Nat
  crtime : Nat
  kind : FType
  perm : Nat
  nlink : Nat
  uid : Nat
  gid : Nat
  rdev : Nat
  blksize : Nat
  flags : Nat
  deriving DecidableEq, Repr

/-- `convert_file(value)` (unix.rs 45-67).  The inode is the SeaHash of
the path (`inode(path)`, unix.rs 29-33); hashing is opaque, so the hash
is a parameter `inodeOf` of every definition that uses it.  Missing
times map to the epoch (0 here), a missing mode to `0o777`, missing
uid/gid to 0; the mode is cast `as u16`. -/
def convert_file (inodeOf : RPath → Nat) (value : RFile) : FileAttrM :=
  { ino := inodeOf value.path
    size := value.metadata.size
    blocks := (value.metadata.size + BLOCK_SIZE - 1) / BLOCK_SIZE
    atime := value.metadata.accessed.getD 0
    mtime := value.metadata.modified.getD 0
    ctime := value.metadata.created.getD 0
    crtime := 0
    kind := value.metadata.ftype
    perm := (value.metadata.mode.getD 0o777) % 65536
    nlink := 0
    uid := value.metadata.uid.getD 0
    gid := value.metadata.gid.getD 0
    rdev := 0
    blksize := BLOCK_SIZE
    flags := 0 }

/- ------------------------------------------------------------------
Driver::read / Driver::read_tempfile — unix.rs lines 186-273
------------------------------------------------------------------- -/

/-- Unix errno values used by the callbacks. -/
inductive Errno where
  | ENOENT
  | EACCES
  | EINVAL
  | EIO5
  | ENOSYS
  deriving DecidableEq, Repr

/-- A reply sent by a fuser callback.  `panicked` models reaching a
`todo!()` in the source, which aborts without replying. -/
inductive FuseReply where
  | dataReply (bytes : List Nat)
  | attrReply (attrs : FileAttrM)
  | entryReply (attrs : FileAttrM)
  | okReply
  | errReply (e : Errno)
  | panicked
  deriving DecidableEq, Repr

/-- Streaming branch of `Driver::read` (unix.rs 188-213): skip `offset`
bytes with `read_exact` (failing with an io-error when the stream is
shorter than `offset`), issue one `Read::read` into the buffer — which
may deliver fewer than `bufLen` bytes; the actual count is the
`delivered` parameter, constrained by hypothesis in the theorems — then
close the stream with `on_read` and return the delivered count.  The
returned list is the final content of the caller's buffer, whose bytes
past `delivered` keep their initial zero value. -/
def streamRead (content : List Nat) (bufLen offset delivered : Nat)
    (onReadRes : Except RErr Unit) : Except RErr (List Nat × Nat) :=
  if offset > content.length then .error .ioError
  else
    let buf := (content.drop offset).take delivered ++
      List.replicate (bufLen - delivered) 0
    match onReadRes with
    | .ok _ => .ok (buf, delivered)
    | .error e => .error e

/-- `Driver::read_tempfile` (unix.rs 224-273): transfer the whole remote
file into a fresh temporary file (`open_file`, result `transferRes`),
reopen it, `read_exact` the `offset` prefix, `read_exact` the full buffer
(failing with an io-error when fewer than `bufLen` bytes remain), and
return `buffer.len()`.  Local tempfile creation/open failures are not
modelled (they are local-disk conditions independent of the inputs). -/
def readTempfile (content : List Nat) (bufLen offset : Nat)
    (transferRes : Except RErr Unit) : Except RErr (List Nat × Nat) :=
  match transferRes with
  | .error e => .error e
  | .ok _ =>
    if offset > content.length then .error .ioError
    else if content.length - offset < bufLen then .error .ioError
    else .ok ((content.drop offset).take bufLen, bufLen)

/-- `Driver::read` (unix.rs 186-221): use the stream when `open`
succeeds; fall back to the temporary file exactly when `open` reports
`UnsupportedFeature`; propagate any other open error. -/
def driverRead (openRes : Except RErr Unit) (content : List Nat)
    (bufLen offset delivered : Nat) (onReadRes transferRes : Except RErr Unit) :
    Except RErr (List Nat × Nat) :=
  match openRes with
  | .ok _ => streamRead content bufLen offset delivered onReadRes
  | .error .unsupportedFeature => readTempfile content bufLen offset transferRes
  | .error e => .error e

/-- C7 counterexample.  Remote content `[7]` (one byte), a two-byte
destination buffer, offset 0: a streaming read is a valid single
`Read::read` delivering 1 byte (`1 ≤ min 2 1`) and succeeds returning
byte count 1, but the temp-file fallback `read_exact`s the full two-byte
buffer against the one-byte temp file and fails with an io-error — not
the same bytes, not the same byte count. -/
theorem c7_counterexample :
    (1 ≤ min 2 (([7] : List Nat).length - 0) ∧ (0 : Nat) ≤ ([7] : List Nat).length) ∧
    streamRead [7] 2 0 1 (.ok ()) = .ok ([7, 0], 1) ∧
    readTempfile [7] 2 0 (.ok ()) = .error .ioError ∧
    readTempfile [7] 2 0 (.ok ()) ≠ streamRead [7] 2 0 1 (.ok ()) := by
  refine ⟨by decide, rfl, rfl, ?_⟩
  intro h
  rw [show readTempfile [7] 2 0 (.ok ()) = .error .ioError from rfl,
    show streamRead [7] 2 0 1 (.ok ()) = .ok ([7, 0], 1) from rfl] at h
  exact Except.noConfusion h

/-- C7 amended.  When the backend reports *unsupported-feature* on open,
the temp-file fallback read returns the same bytes and the same byte
count as a streaming read that delivers the full request, provided the
remote content holds at least `offset + bufLen` bytes; both return the
content slice `[offset, offset + bufLen)` with count `bufLen`.  (When the
content is shorter, the fallback fails with an io-error while a streaming
read returns a short count — see the counterexample.  The source does
delete the temporary file afterwards, but local-disk state is outside
this embedding.) -/
theorem c7_tempfile_fallback (content : List Nat) (bufLen offset : Nat)
    (h : offset + bufLen ≤ content.length) :
    driverRead (.error .unsupportedFeature) content bufLen offset bufLen
        (.ok ()) (.ok ()) =
      driverRead (.ok ()) content bufLen offset bufLen (.ok ()) (.ok ()) ∧
    driverRead (.error .unsupportedFeature) content bufLen offset bufLen
        (.ok ()) (.ok ()) =
      .ok ((content.drop offset).take bufLen, bufLen) := by
  have hoff : ¬ offset > content.length := by omega
  have hrem : ¬ content.length - offset < bufLen := by omega
  constructor
  · simp [driverRead, streamRead, readTempfile, hoff, hrem]
  · simp [driverRead, readTempfile, hoff, hrem]

/-- Witness for C7 amended at content `[1, 2, 3]`, buffer length 2,
offset 1. -/
theorem c7_tempfile_fallback_witness :
    (1 + 2 ≤ ([1, 2, 3] : List Nat).length) ∧
    driverRead (.error .unsupportedFeature) [1, 2, 3] 2 1 2 (.ok ()) (.ok ()) =
      driverRead (.ok ()) [1, 2, 3] 2 1 2 (.ok ()) (.ok ()) ∧
    driverRead (.error .unsupportedFeature) [1, 2, 3] 2 1 2 (.ok ()) (.ok ()) =
      .ok ([2, 3], 2) :=
  ⟨by decide, (c7_tempfile_fallback [1, 2, 3] 2 1 (by decide)).1,
    (c7_tempfile_fallback [1, 2, 3] 2 1 (by decide)).2⟩

/- ------------------------------------------------------------------
MountOption — src/remotefs-fuse/src/mount/option.rs
------------------------------------------------------------------- -/

/-- The unix-relevant variants of `MountOption` (option.rs 10-141). -/
inductive MountOptionM where
  | uid (n : Nat)
  | gid (n : Nat)
  | defaultMode (n : Nat)
  | fsName (s : String)
  | subType (s : String)
  | custom (s : String)
  | allowOther
  | defaultPermissions
  deriving DecidableEq, Repr

/-- The corresponding `fuser::MountOption` variants. -/
inductive FuserOptM where
  | fsName (s : String)
  | subType (s : String)
  | custom (s : String)
  | allowOther
  | defaultPermissions
  deriving DecidableEq, Repr

/-- `TryFrom<&MountOption> for fuser::MountOption` (option.rs 145-173):
`Uid`, `Gid` and `DefaultMode` fall into the catch-all arm and are
rejected as unsupported. -/
def tryFromMountOption : MountOptionM → Except String FuserOptM
  | .fsName s => .ok (.fsName s)
  | .subType s => .ok (.subType s)
  | .custom s => .ok (.custom s)
  | .allowOther => .ok .allowOther
  | .defaultPermissions => .ok .defaultPermissions
  | _ => .error "Unsupported mount option"

/-- `Mount::mount` (mount.rs 35-52): the options handed to the fuser
session are `options.iter().flat_map(|opt| opt.try_into()).collect()`,
silently dropping every option the conversion rejects. -/
def sessionOptions (options : List MountOptionM) : List FuserOptM :=
  options.filterMap (fun o => (tryFromMountOption o).toOption)

/- ------------------------------------------------------------------
Driver helpers and Filesystem callbacks — unix.rs
------------------------------------------------------------------- -/

/-- `Driver::get_inode_from_path` (unix.rs 96-108): stat the path, build
the attributes, and record `attrs.ino → path` in the inode database when
absent.  Returns the result together with the updated database. -/
def get_inode_from_path (inodeOf : RPath → Nat)
    (statFn : RPath → Except RErr RFile) (db : InodeDbM) (path : RPath) :
    Except RErr (RFile × FileAttrM) × InodeDbM :=
  match statFn path with
  | .error e => (.error e, db)
  | .ok file =>
    let attrs := convert_file inodeOf file
    let db2 := if db.has attrs.ino then db else db.put attrs.ino path
    (.ok (file, attrs), db2)

/-- `Driver::get_inode` (unix.rs 111-121): resolve the inode to a path in
the database (no-such-file when unmapped), then stat it. -/
def get_inode (inodeOf : RPath → Nat) (statFn : RPath → Except RErr RFile)
    (db : InodeDbM) (ino : Nat) : Except RErr (RFile × FileAttrM) × InodeDbM :=
  match db.get ino with
  | none => (.error .noSuchFileOrDirectory, db)
  | some path => get_inode_from_path inodeOf statFn db path

/-- `Driver::lookup_name` (unix.rs 124-135): join the parent path with the
name and insert `hash(path) → path` into the database *before* any stat is
attempted (when the hash is not yet mapped). -/
def lookup_name (inodeOf : RPath → Nat) (db : InodeDbM) (parent : Nat)
    (name : String) : Option RPath × InodeDbM :=
  match db.get parent with
  | none => (none, db)
  | some parent_path =>
    let path := parent_path ++ [name]
    let ino := inodeOf path
    if db.has ino then (some path, db) else (some path, db.put ino path)

/-- `Driver::check_parent_access` (unix.rs 138-148). -/
def check_parent_access (inodeOf : RPath → Nat)
    (statFn : RPath → Except RErr RFile) (db : InodeDbM) (ino uid gid : Nat)
    (access_mask : Nat) : Bool × InodeDbM :=
  match get_inode inodeOf statFn db ino with
  | (.error _, db2) => (false, db2)
  | (.ok (parent, _), db2) => (check_access parent uid gid access_mask, db2)

/-- `Filesystem::lookup` (unix.rs 371-396). -/
def lookupCb (inodeOf : RPath → Nat) (statFn : RPath → Except RErr RFile)
    (db : InodeDbM) (uid gid parent : Nat) (name : String) :
    FuseReply × InodeDbM :=
  match lookup_name inodeOf db parent name with
  | (none, db1) => (.errReply .ENOENT, db1)
  | (some path, db1) =>
    match get_inode_from_path inodeOf statFn db1 path with
    | (.error _, db2) => (.errReply .ENOENT, db2)
    | (.ok (file, attrs), db2) =>
      if check_access file uid gid X_OK then (.entryReply attrs, db2)
      else (.errReply .EACCES, db2)

/-- `Filesystem::getattr` (unix.rs 411-423).  The driver state carries the
mount options (`Driver.options`), but no attribute path reads them. -/
def getattrCb (inodeOf : RPath → Nat) (statFn : RPath → Except RErr RFile)
    (options : List MountOptionM) (db : InodeDbM) (ino : Nat) :
    FuseReply × InodeDbM :=
  match get_inode inodeOf statFn db ino with
  | (.error _, db2) => (.errReply .ENOENT, db2)
  | (.ok (_, attrs), db2) => (.attrReply attrs, db2)

/-- `Filesystem::symlink` (unix.rs 687-717): resolve the name, check
`W_OK` on the parent, call the backend `symlink`; an error replies `EIO5`,
but the success path runs into `todo!()` — modelled as `panicked`. -/
def symlinkCb (inodeOf : RPath → Nat) (statFn : RPath → Except RErr RFile)
    (symlinkFn : RPath → RPath → Except RErr Unit) (db : InodeDbM)
    (uid gid parent : Nat) (name : String) (link : RPath) :
    FuseReply × InodeDbM :=
  match lookup_name inodeOf db parent name with
  | (none, db1) => (.errReply .ENOENT, db1)
  | (some path, db1) =>
    match check_parent_access inodeOf statFn db1 parent uid gid W_OK with
    | (false, db2) => (.errReply .EACCES, db2)
    | (true, db2) =>
      match symlinkFn path link with
      | .error _ => (.errReply .EIO5, db2)
      | .ok _ => (.panicked, db2)

/-- `Filesystem::read` (unix.rs 847-896): require a read-capable handle
and a non-negative offset, stat the inode, truncate the request to
`min(size, file.size - offset)` (saturating), zero-fill a buffer of that
length, run `Driver::read` into it and reply with the whole buffer. -/
def fuseReadCb (handler : Option FileHandleM)
    (statFn : RPath → Except RErr RFile) (inodeOf : RPath → Nat)
    (db : InodeDbM) (ino : Nat) (offset : Int) (size : Nat)
    (openRes : Except RErr Unit) (content : List Nat) (delivered : Nat)
    (onReadRes transferRes : Except RErr Unit) : FuseReply × InodeDbM :=
  if ¬ ((handler.map (fun h => h.read)).getD false) then (.errReply .EACCES, db)
  else if offset < 0 then (.errReply .EINVAL, db)
  else
    match get_inode inodeOf statFn db ino with
    | (.error _, db2) => (.errReply .ENOENT, db2)
    | (.ok (file, _), db2) =>
      let read_size := min size (file.metadata.size - offset.toNat)
      match driverRead openRes content read_size offset.toNat delivered
          onReadRes transferRes with
      | .error _ => (.errReply .EIO5, db2)
      | .ok (buf, _) => (.dataReply buf, db2)

/-- Helper: the uid carried by an attr reply, if any. -/
def replyUid : FuseReply → Option Nat
  | .attrReply a => some a.uid
  | _ => none

/-- Concrete root directory with mode `0o777` (used by concrete
instantiations). -/
def rootDir777 : RFile :=
  ⟨[],
    { size := 0, uid := none, gid := none, mode := some 0o777,
      accessed := none, modified := none, created := none,
      ftype := FType.dir }⟩

/-- Concrete regular file of size 3 at `/f` (used by concrete
instantiations). -/
def fileSize3 : RFile :=
  ⟨["f"],
    { size := 3, uid := none, gid := none, mode := some 0o644,
      accessed := none, modified := none, created := none,
      ftype := FType.file }⟩

/-- Concrete regular file at `/f` owned by uid 42 (used by concrete
instantiations). -/
def fileUid42 : RFile :=
  ⟨["f"],
    { size := 0, uid := some 42, gid := some 42, mode := some 0o644,
      accessed := none, modified := none, created := none,
      ftype := FType.file }⟩

/-- C8.  In the Unix read callback, for every request with a valid read
handle and `0 ≤ offset ≤ file.size`, the successful reply contains exactly
`min(size, file.size − offset)` bytes even when the single `Read::read`
call delivers fewer (`delivered`) bytes: the undelivered tail of the reply
buffer is zero bytes — the reply is neither truncated nor turned into an
error. -/
theorem c8_read_reply_zero_padded (h : FileHandleM) (file : RFile)
    (statFn : RPath → Except RErr RFile) (inodeOf : RPath → Nat)
    (db : InodeDbM) (ino : Nat) (path : RPath) (offset : Int) (size : Nat)
    (content : List Nat) (delivered : Nat)
    (hread : h.read = true)
    (hdb : db.get ino = some path)
    (hstat : statFn path = .ok file)
    (hoff0 : 0 ≤ offset)
    (hoffsz : offset.toNat ≤ file.metadata.size)
    (hlen : content.length = file.metadata.size)
    (hdel : delivered ≤ min (min size (file.metadata.size - offset.toNat))
      (content.length - offset.toNat)) :
    (fuseReadCb (some h) statFn inodeOf db ino offset size (.ok ()) content
        delivered (.ok ()) (.ok ())).1 =
      .dataReply ((content.drop offset.toNat).take delivered ++
        List.replicate (min size (file.metadata.size - offset.toNat) - delivered) 0) ∧
    ((content.drop offset.toNat).take delivered ++
        List.replicate (min size (file.metadata.size - offset.toNat) - delivered) 0).length =
      min size (file.metadata.size - offset.toNat) := by
  have hnotneg : ¬ offset < 0 := not_lt.mpr hoff0
  have hov : ¬ offset.toNat > content.length := by omega
  constructor
  · simp [fuseReadCb, hread, hnotneg, get_inode, hdb, get_inode_from_path,
      hstat, driverRead, streamRead, hov]
  · simp only [List.length_append, List.length_take, List.length_drop,
      List.length_replicate]
    omega

/-- Witness for C8: file of size 3, request of 4 bytes at offset 1 with
only 1 of the 2 due bytes delivered — the reply is the delivered byte
followed by one zero. -/
theorem c8_read_reply_zero_padded_witness :
    (fuseReadCb (some ⟨9, true, false⟩) (fun _ => .ok fileSize3)
        (fun p => 100 + p.length) (InodeDbM.load.put 103 ["f"]) 103 1 4
        (.ok ()) [5, 6, 7] 1 (.ok ()) (.ok ())).1 =
      .dataReply [6, 0] ∧ ([6, 0] : List Nat).length = 2 := by
  have hmain := c8_read_reply_zero_padded ⟨9, true, false⟩ fileSize3
    (fun _ => .ok fileSize3)
    (fun p => 100 + p.length) (InodeDbM.load.put 103 ["f"]) 103 ["f"] 1 4
    [5, 6, 7] 1 rfl (by decide) rfl (by decide) (by decide) (by decide)
    (by decide)
  exact ⟨hmain.1, by decide⟩

/-- C9.  A failed lookup still mutates driver state: when the parent inode
is mapped to `pp` but the stat of `pp ++ [name]` fails, the callback
replies `ENOENT`, yet the inode table afterwards contains the mapping
`hash(pp/name) → pp/name`, inserted by `lookup_name` before the stat was
attempted (stated for a child hash not yet present in the table). -/
theorem c9_failed_lookup_inserts (inodeOf : RPath → Nat)
    (statFn : RPath → Except RErr RFile) (db : InodeDbM)
    (uid gid parent : Nat) (name : String) (pp : RPath) (e : RErr)
    (hparent : db.get parent = some pp)
    (hstat : statFn (pp ++ [name]) = .error e)
    (hfresh : db.has (inodeOf (pp ++ [name])) = false) :
    (lookupCb inodeOf statFn db uid gid parent name).1 = .errReply .ENOENT ∧
    (lookupCb inodeOf statFn db uid gid parent name).2.get
        (inodeOf (pp ++ [name])) = some (pp ++ [name]) := by
  have hparentA : lookupA db.database parent = some pp := hparent
  have hfreshA : (lookupA db.database (inodeOf (pp ++ [name]))).isSome = false :=
    hfresh
  constructor
  · simp [lookupCb, lookup_name, InodeDbM.get, InodeDbM.has, hparentA,
      hfreshA, get_inode_from_path, hstat]
  · simp [lookupCb, lookup_name, InodeDbM.get, InodeDbM.has, InodeDbM.put,
      hparentA, hfreshA, get_inode_from_path, hstat, lookupA_insertA_self]

/-- Witness for C9: looking up `"a"` under the root of a fresh table with
a backend whose stat always fails. -/
theorem c9_failed_lookup_inserts_witness :
    (lookupCb (fun p => 100 + p.length)
        (fun _ => .error .noSuchFileOrDirectory) InodeDbM.load
        1000 1000 1 "a").1 = .errReply .ENOENT ∧
    (lookupCb (fun p => 100 + p.length)
        (fun _ => .error .noSuchFileOrDirectory) InodeDbM.load
        1000 1000 1 "a").2.get 101 = some ["a"] := by
  have hmain := c9_failed_lookup_inserts (fun p => 100 + p.length)
    (fun _ => .error .noSuchFileOrDirectory) InodeDbM.load 1000 1000 1 "a"
    [] RErr.noSuchFileOrDirectory (by decide) rfl (by decide)
  exact ⟨hmain.1, hmain.2⟩

/-- C1.  A concrete Unix `symlink` callback in which the parent inode 1 is
mapped to `"/"`, the parent stat succeeds with mode `0o777` (so the
`W_OK` parent check passes for uid 1000), and the backend `symlink` call
succeeds: the callback does not reply with the new file's attributes —
it reaches the `todo!()` on the success path (unix.rs 716) and panics. -/
theorem c1_symlink_panics :
    (symlinkCb (fun p => 100 + p.length)
        (fun p => if p = [] then .ok rootDir777
          else .error .noSuchFileOrDirectory)
        (fun _ _ => .ok ()) InodeDbM.load 1000 1000 1 "a" ["t"]).1 =
      FuseReply.panicked := by decide

/-- C3.  With mount options `[uid=1000]`, a `getattr` on a file whose
backend metadata carries uid 42 reports uid 42, not 1000: `convert_file`
never consults the options, and the `TryFrom` conversion feeding the
fuser session silently drops `MountOption::Uid`, so no layer applies it. -/
theorem c3_uid_option_ignored :
    replyUid (getattrCb (fun p => 100 + p.length)
        (fun _ => .ok fileUid42)
        [MountOptionM.uid 1000] (InodeDbM.load.put 103 ["f"]) 103).1 =
      some 42 ∧
    tryFromMountOption (MountOptionM.uid 1000) =
      .error "Unsupported mount option" ∧
    sessionOptions [MountOptionM.uid 1000] = [] := by
  exact ⟨rfl, rfl, rfl⟩

/- ------------------------------------------------------------------
Windows driver — src/remotefs-fuse/src/driver/windows.rs
------------------------------------------------------------------- -/

/-- NTSTATUS values returned by the Windows callbacks. -/
inductive NtStatus where
  | invalidParameter
  | accessDenied
  | deletePending
  | cannotDelete
  | objectNameCollision
  | objectNameNotFound
  | invalidDeviceRequest
  | connectionDisconnected
  deriving DecidableEq, Repr

/-- `AltStream` (windows.rs 48-61): only the fields `create_file` reads. -/
structure AltStreamM where
  delete_pending : Bool
  data : List Nat
  deriving DecidableEq, Repr

/-- `Stat` (entry.rs): the fields `create_file` and `move_file` read.
Alt-stream keys compare case-insensitively in the source; plain string
keys suffice for the claims at hand. -/
structure WinStat where
  file : RFile
  delete_pending : Bool
  delete_on_close : Bool
  alt_streams : List (String × AltStreamM)
  deriving DecidableEq, Repr

/-- Result of a successful `create_file`: `CreateFileInfo` plus whether
the returned handle binds an alt stream. -/
structure CreateInfoM where
  is_dir : Bool
  new_file_created : Bool
  alt_stream_bound : Bool
  delete_on_close : Bool
  deriving DecidableEq, Repr

/-- Win32 create dispositions (`dokan_sys::win32`). -/
def FILE_SUPERSEDE : Nat := 0

/-- FILE_OPEN disposition. -/
def FILE_OPEN : Nat := 1

/-- FILE_CREATE disposition. -/
def FILE_CREATE : Nat := 2

/-- FILE_OPEN_IF disposition. -/
def FILE_OPEN_IF : Nat := 3

/-- FILE_OVERWRITE disposition. -/
def FILE_OVERWRITE : Nat := 4

/-- FILE_OVERWRITE_IF disposition. -/
def FILE_OVERWRITE_IF : Nat := 5

/-- FILE_MAXIMUM_DISPOSITION. -/
def FILE_MAXIMUM_DISPOSITION : Nat := 5

/-- create option FILE_DIRECTORY_FILE. -/
def FILE_DIRECTORY_FILE : Nat := 0x1

/-- create option FILE_NON_DIRECTORY_FILE. -/
def FILE_NON_DIRECTORY_FILE : Nat := 0x40

/-- create option FILE_DELETE_ON_CLOSE. -/
def FILE_DELETE_ON_CLOSE : Nat := 0x1000

/-- access right FILE_WRITE_DATA. -/
def FILE_WRITE_DATA : Nat := 0x2

/-- access right FILE_APPEND_DATA. -/
def FILE_APPEND_DATA : Nat := 0x4

/-- `FileSystemHandler::create_file` (windows.rs 539-781).  Inputs:
`stat?` is the result of the initial `self.stat(file_name).ok()` (the
cache-or-backend lookup); `writeRes` is the result of the empty
`Driver::write` used to create a missing file; `createDirRes` the result
of `create_dir`; `restatRes` the result of the `self.stat` call after a
creation.  `streamKey` is `EntryName(file_name)` — the source uses the
whole callback name as the alt-stream key.  Lock-poisoning branches are
not modelled.  Note the `match is_file` block of the source (lines
654-709) is unreachable: the alt-stream block always produces
`Some(..)` or returns early, so the embedding ends the `some stat` arm
with it. -/
def createFileW (stat? : Option WinStat) (streamKey : String)
    (desired_access create_disposition create_options : Nat)
    (writeRes createDirRes : Except RErr Unit)
    (restatRes : Except RErr WinStat) : Except NtStatus CreateInfoM :=
  if create_disposition > FILE_MAXIMUM_DISPOSITION then .error .invalidParameter
  else
    let delete_on_close := decide (create_options &&& FILE_DELETE_ON_CLOSE > 0)
    match stat? with
    | some stat =>
      let is_readonly :=
        (stat.file.metadata.mode.map (fun m => decide (m &&& 0o222 = 0))).getD false
      if is_readonly &&
          (decide (desired_access &&& FILE_WRITE_DATA > 0) ||
           decide (desired_access &&& FILE_APPEND_DATA > 0)) then
        .error .accessDenied
      else if stat.delete_pending then .error .deletePending
      else if is_readonly && delete_on_close then .error .cannotDelete
      else
        match lookupA stat.alt_streams streamKey with
        | some stream =>
          if stream.delete_pending then .error .deletePending
          else if (create_disposition = FILE_SUPERSEDE ∨
              create_disposition = FILE_OVERWRITE ∨
              create_disposition = FILE_OVERWRITE_IF) ∧
              create_disposition ≠ FILE_SUPERSEDE ∧ is_readonly then
            .error .accessDenied
          else if create_disposition = FILE_CREATE then
            .error .objectNameCollision
          else
            .ok ⟨false, false, true, delete_on_close⟩
        | none =>
          if create_disposition = FILE_OPEN ∨
              create_disposition = FILE_OVERWRITE then
            .error .objectNameNotFound
          else if is_readonly then .error .accessDenied
          else
            .ok ⟨false, true, true, delete_on_close⟩
    | none =>
      if create_disposition = FILE_OPEN ∨ create_disposition = FILE_OPEN_IF then
        if create_options &&& FILE_NON_DIRECTORY_FILE > 0 then
          match writeRes with
          | .error _ => .error .connectionDisconnected
          | .ok _ =>
            match restatRes with
            | .error _ => .error .connectionDisconnected
            | .ok _ => .ok ⟨false, true, false, delete_on_close⟩
        else
          match createDirRes with
          | .error _ => .error .connectionDisconnected
          | .ok _ =>
            match restatRes with
            | .error _ => .error .connectionDisconnected
            | .ok _ => .ok ⟨true, true, false, delete_on_close⟩
      else .error .invalidParameter

/-- `FileSystemHandler::move_file` (windows.rs 1292-1328).  The second
component records whether the backend `mov` was invoked. -/
def moveFileW (replace_if_existing : Bool) (existsRes : Except RErr Bool)
    (movRes : Except RErr Unit) : Except NtStatus Unit × Bool :=
  if !replace_if_existing &&
      (match existsRes with | .ok b => b | .error _ => true) then
    (.error .objectNameCollision, false)
  else
    match movRes with
    | .ok _ => (.ok (), true)
    | .error _ => (.error .accessDenied, true)

/-- Concrete `WinStat` for an existing empty file (used by concrete
instantiations). -/
def statF : WinStat := ⟨fileSize3, false, false, []⟩

/-- C4 counterexample.  `create_file` with disposition `FILE_OPEN` on a
path whose stat finds no entry (`stat? = none`), with
`FILE_NON_DIRECTORY_FILE` set and a backend whose create/stat succeed,
returns success with `new_file_created = true` — it creates and opens an
empty file instead of returning `OBJECT_NAME_NOT_FOUND`. -/
theorem c4_counterexample :
    createFileW none "f" FILE_WRITE_DATA FILE_OPEN FILE_NON_DIRECTORY_FILE
        (.ok ()) (.ok ()) (.ok statF) =
      .ok ⟨false, true, false, false⟩ ∧
    createFileW none "f" FILE_WRITE_DATA FILE_OPEN FILE_NON_DIRECTORY_FILE
        (.ok ()) (.ok ()) (.ok statF) ≠
      .error .objectNameNotFound := by
  refine ⟨rfl, ?_⟩
  intro h
  rw [show createFileW none "f" FILE_WRITE_DATA FILE_OPEN
      FILE_NON_DIRECTORY_FILE (.ok ()) (.ok ()) (.ok statF) =
      .ok ⟨false, true, false, false⟩ from rfl] at h
  exact Except.noConfusion h

/-- C4 amended.  In the Windows driver, `create_file` with disposition
`FILE_OPEN` on a path for which stat finds no existing entry creates the
entry instead of failing: with `FILE_NON_DIRECTORY_FILE` set it writes an
empty file and opens it, replying with `new_file_created = true` (when
the backend write and restat succeed).  *Not-found* is returned in a
different situation: when stat finds an existing entry whose alt-stream
map lacks the callback-name key and the disposition is `FILE_OPEN` or
`FILE_OVERWRITE`. -/
theorem c4_open_missing_creates (streamKey : String)
    (desired_access create_options : Nat) (restat : WinStat) (stat : WinStat)
    (hnd : create_options &&& FILE_NON_DIRECTORY_FILE > 0)
    (hstream : lookupA stat.alt_streams streamKey = none)
    (hro : (stat.file.metadata.mode.map
      (fun m => decide (m &&& 0o222 = 0))).getD false = false)
    (hdp : stat.delete_pending = false) :
    createFileW none streamKey desired_access FILE_OPEN create_options
        (.ok ()) (.ok ()) (.ok restat) =
      .ok ⟨false, true, false,
        decide (create_options &&& FILE_DELETE_ON_CLOSE > 0)⟩ ∧
    createFileW (some stat) streamKey 0 FILE_OPEN 0
        (.ok ()) (.ok ()) (.ok restat) =
      .error .objectNameNotFound := by
  constructor
  · simp [createFileW, FILE_OPEN, FILE_MAXIMUM_DISPOSITION, hnd]
  · simp [createFileW, FILE_OPEN, FILE_MAXIMUM_DISPOSITION, FILE_SUPERSEDE,
      FILE_OVERWRITE, FILE_DELETE_ON_CLOSE, FILE_WRITE_DATA, FILE_APPEND_DATA,
      hstream, hro, hdp]

/-- Witness for C4 amended: a missing path is created on `FILE_OPEN`,
while `FILE_OPEN` on an existing file (whose alt-stream map is empty)
yields *not-found*. -/
theorem c4_open_missing_creates_witness :
    createFileW none "f" 0 FILE_OPEN FILE_NON_DIRECTORY_FILE
        (.ok ()) (.ok ()) (.ok statF) =
      .ok ⟨false, true, false, false⟩ ∧
    createFileW (some statF) "f" 0 FILE_OPEN 0 (.ok ()) (.ok ()) (.ok statF) =
      .error .objectNameNotFound := by
  have hmain := c4_open_missing_creates "f" 0 FILE_NON_DIRECTORY_FILE statF
    statF (by decide) rfl (by decide) rfl
  exact ⟨hmain.1, hmain.2⟩

/-- C10.  In the Windows `move_file` with `replace_if_existing = false`,
when the backend `exists(dst)` probe itself fails with an error, the
operation reports *name-collision* and never invokes the backend `mov`:
an undeterminable destination is conservatively treated as existing
(`unwrap_or(true)`). -/
theorem c10_move_exists_error_collides (e : RErr) (movRes : Except RErr Unit) :
    moveFileW false (.error e) movRes = (.error .objectNameCollision, false) := by
  simp [moveFileW]

end RemotefsFuse
